import Mathlib

set_option linter.unusedVariables false

/-
Verification development for the Synapse python client storage helpers.

Two components are modelled:

1. The batch file-handle copy coordinator of synapseutils (public operation
   copyFileHandles together with its private helpers
   _create_batch_file_handle_copy_request and _copy_file_handles_batch).
   The module synapseutils/copy.py itself is not part of the source tree
   (only its unit tests are), so these definitions are modelled from the
   specification text and cross-checked against the unit tests.

2. The storage adapters of synapseclient/remote_file_storage_wrappers.py
   (S3ClientWrapper and SFTPWrapper), embedded shallowly: network and
   filesystem effects become explicit oracles and event traces, python
   exceptions become an error type returned through Except or a pair.
-/

deriving instance DecidableEq for Except

/-- Python exceptions raised by the modelled code.  valueError keeps the
message and the extra positional arguments exactly as the python code passes
them (the source passes key and bucket as extra arguments of ValueError,
it does not interpolate them). -/
inductive PyError where
  | valueError (message : String) (args : List String)
  | notImplementedError (message : String)
  | clientError (code : String) (payload : String)
deriving DecidableEq, Repr

/-- Modelled from the spec: the InvalidArgument error category of the
error-handling taxonomy, namely malformed caller input (mismatched list
lengths, empty required lists, non-existent local upload source, non-SFTP
URL scheme given to the SFTP adapter).  In the code these raises are
ValueError and NotImplementedError; backend client errors are outside the
category. -/
def isInvalidArgument : PyError → Bool
  | .valueError _ _ => true
  | .notImplementedError _ => true
  | .clientError _ _ => false

/-! ## Batch copy coordinator (modelled from the spec) -/

/-- Modelled from the spec: the fixed page size of the copy coordinator,
100 items per remote call (the constant MAX_FILE_HANDLE_PER_COPY_REQUEST
of synapseutils/copy.py, which is missing from the source tree). -/
def MAX_FILE_HANDLE_PER_COPY_REQUEST : Nat := 100

/-- The originalFile sub-object of one copy request entry. -/
structure OriginalFileRef where
  fileHandleId : String
  associateObjectId : String
  associateObjectType : String
deriving DecidableEq, Repr

/-- One entry of the copyRequests list sent to POST /filehandles/copy. -/
structure CopyRequestItem where
  originalFile : OriginalFileRef
  newContentType : Option String
  newFileName : Option String
deriving DecidableEq, Repr

/-- The JSON body of one remote call: a copyRequests list. -/
structure BatchCopyRequest where
  copyRequests : List CopyRequestItem
deriving DecidableEq, Repr

/-- One entry of the copyResults list of the server response: either a
success carrying a newFileHandle object, or a per-item failure carrying a
failureCode; both carry the originalFileHandleId. -/
inductive CopyResultItem where
  | success (newFileHandle : List (String × String)) (originalFileHandleId : String)
  | failure (failureCode : String) (originalFileHandleId : String)
deriving DecidableEq, Repr

/-- Modelled from the spec: the positional zip of the five parallel input
lists into CopyRequestItem entries, preserving relative order (the body of
_create_batch_file_handle_copy_request of synapseutils/copy.py, which is
missing from the source tree). -/
def buildCopyRequests : List String → List String → List String →
    List (Option String) → List (Option String) → List CopyRequestItem
  | fh :: fhs, ot :: ots, oi :: ois, ct :: cts, fn :: fns =>
      ⟨⟨fh, oi, ot⟩, ct, fn⟩ :: buildCopyRequests fhs ots ois cts fns
  | _, _, _, _, _ => []

/-- Modelled from the spec: _create_batch_file_handle_copy_request of
synapseutils/copy.py (missing from the source tree) builds the request body
by zipping the five input lists positionally. -/
def _create_batch_file_handle_copy_request
    (fileHandleIds objTypes objIds : List String)
    (newContentTypes newFileNames : List (Option String)) : BatchCopyRequest :=
  ⟨buildCopyRequests fileHandleIds objTypes objIds newContentTypes newFileNames⟩

/-- Modelled from the spec: the sequential paging loop of copyFileHandles.
The remote call is an oracle from a request body to the copyResults list of
the response.  The fuel argument bounds recursion depth; every recursive
call drops a full page, so fuel equal to the length of the first list
suffices.  Returns the concatenated results together with the trace of
issued request bodies in call order. -/
def copyPagesAux {α : Type} (remote : BatchCopyRequest → List α) :
    Nat → List String → List String → List String →
    List (Option String) → List (Option String) →
    List α × List BatchCopyRequest
  | _, [], _, _, _, _ => ([], [])
  | 0, _ :: _, _, _, _, _ => ([], [])
  | Nat.succ fuel, fh :: fhs, ots, ois, cts, fns =>
      let P := MAX_FILE_HANDLE_PER_COPY_REQUEST
      let req := _create_batch_file_handle_copy_request
        ((fh :: fhs).take P) (ots.take P) (ois.take P) (cts.take P) (fns.take P)
      let page := remote req
      let rest := copyPagesAux remote fuel
        ((fh :: fhs).drop P) (ots.drop P) (ois.drop P) (cts.drop P) (fns.drop P)
      (page ++ rest.1, req :: rest.2)

/-- Modelled from the spec: the paging loop of copyFileHandles started with
enough fuel. -/
def copyPages {α : Type} (remote : BatchCopyRequest → List α)
    (fileHandleIds objTypes objIds : List String)
    (newContentTypes newFileNames : List (Option String)) :
    List α × List BatchCopyRequest :=
  copyPagesAux remote fileHandleIds.length
    fileHandleIds objTypes objIds newContentTypes newFileNames

/-- Modelled from the spec: the public operation copyFileHandles of
synapseutils/copy.py (missing from the source tree).  Validates that the
three required lists are non-empty and of equal length, defaults an omitted
optional list to a same-length all-None list, validates the length of a
supplied optional list, and only then runs the sequential paging loop.
Returns the call result together with the trace of issued remote request
bodies; a validation failure returns a ValueError and an empty trace (zero
remote calls). -/
def copyFileHandles {α : Type} (remote : BatchCopyRequest → List α)
    (fileHandleIds objTypes objIds : List String)
    (newContentTypes newFileNames : Option (List (Option String))) :
    Except PyError (List α) × List BatchCopyRequest :=
  if fileHandleIds.length = 0 ∨ objTypes.length ≠ fileHandleIds.length
      ∨ objIds.length ≠ fileHandleIds.length then
    (.error (.valueError "Input lists must be non-empty and of equal length" []), [])
  else
    let cts := newContentTypes.getD (List.replicate fileHandleIds.length none)
    let fns := newFileNames.getD (List.replicate fileHandleIds.length none)
    if cts.length ≠ fileHandleIds.length ∨ fns.length ≠ fileHandleIds.length then
      (.error (.valueError "Optional lists must match the length of the required lists" []), [])
    else
      let out := copyPages remote fileHandleIds objTypes objIds cts fns
      (.ok out.1, out.2)

example :
    _create_batch_file_handle_copy_request ["1", "2"] ["a", "b"] ["x", "y"]
      [none, none] [none, none]
    = ⟨[⟨⟨"1", "x", "a"⟩, none, none⟩, ⟨⟨"2", "y", "b"⟩, none, none⟩]⟩ := by
  decide

example :
    (copyFileHandles (fun r => r.copyRequests) ["1"] ["a"] ["x"] none none).1
    = .ok [⟨⟨"1", "x", "a"⟩, none, none⟩] := by
  rfl

example :
    (copyFileHandles (fun r => r.copyRequests) ["1"] ["a"] [] none none).2 = [] := by
  decide

/-! ## URL and path helpers (models of urllib.parse and posixpath) -/

/-- Index of the last occurrence of a character in a character list. -/
def lastIndexOf? (c : Char) (l : List Char) : Option Nat :=
  match l.reverse.findIdx? (fun x => x = c) with
  | some j => some (l.length - 1 - j)
  | none => none

/-- The result of urllib.parse.urlparse: a six-component URL. -/
structure ParseResult where
  scheme : String
  netloc : String
  path : String
  params : String
  query : String
  fragment : String
deriving DecidableEq, Repr

/-- Characters allowed in a URL scheme after the first letter. -/
def isSchemeChar (c : Char) : Bool :=
  c.isAlpha || c.isDigit || c = '+' || c = '-' || c = '.'

/-- Model of urllib.parse.urlsplit: split off the scheme (a leading run of
scheme characters starting with a letter, before a colon, lowercased), the
network location (after a double slash, up to the next slash, question mark
or hash), then the fragment (after the first hash) and the query (after the
first question mark of what remains); the rest is the path.  The params
component is filled in by urlparse. -/
def urlsplit (url : String) : ParseResult :=
  let cs := url.data
  let (scheme, rest) :=
    match cs.findIdx? (fun c => c = ':') with
    | some i =>
      if 0 < i ∧ (cs.headD ' ').isAlpha ∧ (cs.take i).all isSchemeChar then
        (String.mk ((cs.take i).map Char.toLower), cs.drop (i + 1))
      else ("", cs)
    | none => ("", cs)
  let (netloc, rest2) :=
    match rest with
    | '/' :: '/' :: tail =>
      let n := tail.takeWhile (fun c => ¬ (c = '/' ∨ c = '?' ∨ c = '#'))
      (String.mk n, tail.drop n.length)
    | _ => ("", rest)
  let (rest3, fragment) :=
    match rest2.findIdx? (fun c => c = '#') with
    | some i => (rest2.take i, rest2.drop (i + 1))
    | none => (rest2, [])
  let (path, query) :=
    match rest3.findIdx? (fun c => c = '?') with
    | some i => (rest3.take i, rest3.drop (i + 1))
    | none => (rest3, [])
  ⟨scheme, netloc, String.mk path, "", String.mk query, String.mk fragment⟩

/-- Schemes whose URLs may carry a params component (urllib.parse.uses_params). -/
def uses_params : List String :=
  ["", "ftp", "hdl", "prospero", "http", "imap", "https", "shttp", "rtsp",
   "rtsps", "rtspu", "sip", "sips", "mms", "sftp", "tel"]

/-- Schemes whose URLs carry a network location (urllib.parse.uses_netloc). -/
def uses_netloc : List String :=
  ["", "ftp", "http", "gopher", "nntp", "telnet", "imap", "wais", "file",
   "mms", "https", "shttp", "snews", "prospero", "rtsp", "rtsps", "rtspu",
   "rsync", "svn", "svn+ssh", "sftp", "nfs", "git", "git+ssh", "ws", "wss"]

/-- Model of urllib.parse._splitparams: split the params off a path at the
first semicolon of the last path segment. -/
def _splitparams (cs : List Char) : List Char × List Char :=
  let start := (lastIndexOf? '/' cs).getD 0
  match (cs.drop start).findIdx? (fun c => c = ';') with
  | some k => (cs.take (start + k), cs.drop (start + k + 1))
  | none => (cs, [])

/-- Model of urllib.parse.urlparse: urlsplit, then split the params off the
path when the scheme uses params. -/
def urlparse (url : String) : ParseResult :=
  let r := urlsplit url
  if r.path.data.contains ';' ∧ r.scheme ∈ uses_params then
    let pp := _splitparams r.path.data
    ⟨r.scheme, r.netloc, String.mk pp.1, String.mk pp.2, r.query, r.fragment⟩
  else r

/-- Model of the hostname property of a parse result: the part of the
network location after the userinfo and before the port, lowercased.  IPv6
bracket notation is not modelled. -/
def ParseResult.hostname (p : ParseResult) : String :=
  let cs := p.netloc.data
  let hostinfo :=
    match lastIndexOf? '@' cs with
    | some i => cs.drop (i + 1)
    | none => cs
  String.mk ((hostinfo.takeWhile (fun c => c ≠ ':')).map Char.toLower)

/-- Model of urllib.parse.urlunsplit: reassemble a URL from its parts. -/
def urlunsplit (scheme netloc path query fragment : String) : String :=
  let url := path
  let url :=
    if netloc ≠ "" ∨ (scheme ≠ "" ∧ scheme ∈ uses_netloc ∧ url.take 2 ≠ "//") then
      "//" ++ netloc ++ (if url ≠ "" ∧ url.take 1 ≠ "/" then "/" ++ url else url)
    else url
  let url := if scheme ≠ "" then scheme ++ ":" ++ url else url
  let url := if query ≠ "" then url ++ "?" ++ query else url
  if fragment ≠ "" then url ++ "#" ++ fragment else url

/-- Model of urllib.parse.urlunparse: fold the params back into the path,
then urlunsplit. -/
def urlunparse (p : ParseResult) : String :=
  urlunsplit p.scheme p.netloc
    (if p.params ≠ "" then p.path ++ ";" ++ p.params else p.path)
    p.query p.fragment

/-- The UTF-8 encoding of one character as a list of byte values. -/
def utf8Bytes (c : Char) : List Nat :=
  let n := c.toNat
  if n < 128 then [n]
  else if n < 2048 then [192 + n / 64, 128 + n % 64]
  else if n < 65536 then [224 + n / 4096, 128 + n / 64 % 64, 128 + n % 64]
  else [240 + n / 262144, 128 + n / 4096 % 64, 128 + n / 64 % 64, 128 + n % 64]

/-- The uppercase hexadecimal digit for a value below 16. -/
def hexDigitChar (n : Nat) : Char :=
  if n < 10 then Char.ofNat (48 + n) else Char.ofNat (55 + n)

/-- Bytes left unescaped by urllib.parse.quote with its default safe set:
ASCII letters, digits, underscore, dot, hyphen, tilde, and the slash. -/
def quoteSafeByte (n : Nat) : Bool :=
  decide ((65 ≤ n ∧ n ≤ 90) ∨ (97 ≤ n ∧ n ≤ 122) ∨ (48 ≤ n ∧ n ≤ 57) ∨
    n = 95 ∨ n = 46 ∨ n = 45 ∨ n = 126 ∨ n = 47)

/-- Percent-encode one byte value unless it is safe. -/
def quoteByte (n : Nat) : List Char :=
  if quoteSafeByte n then [Char.ofNat n]
  else ['%', hexDigitChar (n / 16), hexDigitChar (n % 16)]

/-- Model of urllib.parse.quote with the default safe set: percent-encode
every unsafe byte of the UTF-8 encoding. -/
def quote (s : String) : String :=
  String.mk ((s.data.flatMap utf8Bytes).flatMap quoteByte)

/-- The value of one hexadecimal digit character. -/
def hexVal (c : Char) : Option Nat :=
  if '0' ≤ c ∧ c ≤ '9' then some (c.toNat - 48)
  else if 'A' ≤ c ∧ c ≤ 'F' then some (c.toNat - 55)
  else if 'a' ≤ c ∧ c ≤ 'f' then some (c.toNat - 87)
  else none

/-- Percent-decode a character list; an invalid escape is left unchanged.
Each escaped byte becomes one code point (multi-byte UTF-8 sequences are
not re-assembled; this is faithful for ASCII data). -/
def unquoteChars : List Char → List Char
  | [] => []
  | '%' :: a :: b :: rest =>
    match hexVal a, hexVal b with
    | some x, some y => Char.ofNat (16 * x + y) :: unquoteChars rest
    | _, _ => '%' :: unquoteChars (a :: b :: rest)
  | c :: rest => c :: unquoteChars rest

/-- Model of urllib.parse.unquote. -/
def unquote (s : String) : String :=
  String.mk (unquoteChars s.data)

/-- The last slash-separated component of a path: models both
os.path.split(p) taken at its last position and p.split(sep) taken at its
last position, for the slash separator. -/
def lastSlashComponent (p : String) : String :=
  let cs := p.data
  match lastIndexOf? '/' cs with
  | some i => String.mk (cs.drop (i + 1))
  | none => p

/-- Model of posixpath.join for two arguments. -/
def os_path_join (a b : String) : String :=
  if b.take 1 = "/" then b
  else if a = "" ∨ a.takeRight 1 = "/" then a ++ b
  else a ++ "/" ++ b

/-- Model of posixpath.dirname: everything up to the last slash, with
trailing slashes stripped unless the head is all slashes. -/
def os_path_dirname (p : String) : String :=
  let cs := p.data
  match lastIndexOf? '/' cs with
  | none => ""
  | some i =>
    let head := cs.take (i + 1)
    if head.all (fun c => c = '/') then String.mk head
    else String.mk (head.reverse.dropWhile (fun c => c = '/')).reverse

example : urlparse "sftp://host/base/dir"
    = ⟨"sftp", "host", "/base/dir", "", "", ""⟩ := by decide

example : urlparse "sftp://user@h.Ex:22/a/b%20c.txt;p=1?q=2#f"
    = ⟨"sftp", "user@h.Ex:22", "/a/b%20c.txt", "p=1", "q=2", "f"⟩ := by decide

example : (urlparse "sftp://user@h.Ex:22/x").hostname = "h.ex" := by decide

example : urlparse "123://host/x" = ⟨"", "", "123://host/x", "", "", ""⟩ := by decide

example : urlunparse ⟨"sftp", "user@h.Ex:22", "/a/b%20c.txt", "p=1", "q=2", "f"⟩
    = "sftp://user@h.Ex:22/a/b%20c.txt;p=1?q=2#f" := by decide

example : urlunparse ⟨"zz", "", "a", "", "", ""⟩ = "zz:a" := by decide

example : urlunparse ⟨"sftp", "", "relative", "", "", ""⟩ = "sftp:///relative" := by decide

example : quote "/base/dir/a b+~.txt" = "/base/dir/a%20b%2B~.txt" := by decide

example : unquote "/a/b%20c%2Gx" = "/a/b c%2Gx" := by decide

example : os_path_dirname "/a/b" = "/a" ∧ os_path_dirname "a" = ""
    ∧ os_path_dirname "/a/" = "/a" ∧ os_path_dirname "///" = "///"
    ∧ os_path_dirname "//a//b" = "//a" := by decide

example : os_path_join "/a" "b" = "/a/b" ∧ os_path_join "/a/" "b" = "/a/b"
    ∧ os_path_join "" "b" = "b" ∧ os_path_join "/a" "/b" = "/b" := by decide

example : lastSlashComponent "x/y/" = "" ∧ lastSlashComponent "a/b/c" = "c"
    ∧ lastSlashComponent "abc" = "abc" := by decide

/-! ## S3ClientWrapper (from src/synapseclient/remote_file_storage_wrappers.py) -/

/-- Network actions of the S3 wrapper, recorded in call order. -/
inductive S3Event where
  | createSession (profile_name : Option String)
  | uploadTransfer (bucket : String) (remote_file_key : String) (upload_file_path : String)
deriving DecidableEq, Repr

/-- The message of the ValueError raised by S3ClientWrapper.download_file on
a 404 client error; key and bucket are passed as extra arguments. -/
def s3NotFoundMsg : String := "The key:%s does not exist in bucket:%s."

/-- The message of the ValueError raised by S3ClientWrapper.upload_file on a
missing or non-regular source path; the path is passed as an extra argument. -/
def s3UploadBadPathMsg : String := "The path: [%s] does not exist or is not a file"

/-- S3ClientWrapper.download_file.  The boto3 transfer is an oracle: either
it succeeds, or it raises a ClientError carrying an error code.  On success
the function returns download_file_path; a ClientError with code 404 is
translated into a ValueError naming the key and the bucket, any other
ClientError is re-raised unchanged. -/
def S3_download_file (bucket endpoint_url remote_file_key download_file_path : String)
    (backend : Except PyError Unit) : Except PyError String :=
  match backend with
  | .ok _ => .ok download_file_path
  | .error e =>
    match e with
    | .clientError code _ =>
      if code = "404" then
        .error (.valueError s3NotFoundMsg [remote_file_key, bucket])
      else .error e
    | _ => .error e

/-- S3ClientWrapper.upload_file.  The local filesystem is an oracle isfile;
when the source path is not a regular file the function raises a ValueError
before any network event; otherwise it creates the boto session, performs
the transfer and returns upload_file_path.  The second component is the
trace of network events in order. -/
def S3_upload_file (bucket endpoint_url remote_file_key upload_file_path : String)
    (profile_name : Option String) (isfile : String → Bool) :
    Except PyError String × List S3Event :=
  if ¬ isfile upload_file_path then
    (.error (.valueError s3UploadBadPathMsg [upload_file_path]), [])
  else
    (.ok upload_file_path,
     [.createSession profile_name,
      .uploadTransfer bucket remote_file_key upload_file_path])

/-! ## SFTPWrapper (from src/synapseclient/remote_file_storage_wrappers.py) -/

/-- Network and filesystem actions of the SFTP wrapper, in call order. -/
inductive SftpEvent where
  | connect (host : String)
  | remoteMakedirs (path : String)
  | put (localPath : String) (remoteDir : String)
  | localMakedirs (dir : String)
  | get (remotePath : String) (localPath : String)
deriving DecidableEq, Repr

/-- The message of the NotImplementedError raised by
SFTPWrapper._parse_for_sftp on a non-sftp scheme (the double space is in
the source). -/
def sftpSchemeErrorMsg : String :=
  "This method only supports sftp URLs of the  form sftp://..."

/-- SFTPWrapper._parse_for_sftp: parse the URL and fail with a
NotImplementedError unless the scheme is sftp. -/
def _parse_for_sftp (url : String) : Except PyError ParseResult :=
  let parsedURL := urlparse url
  if parsedURL.scheme ≠ "sftp" then .error (.notImplementedError sftpSchemeErrorMsg)
  else .ok parsedURL

/-- A local filesystem oracle for the SFTP wrapper: the current working
directory and the directory and existence tests. -/
structure LocalFS where
  cwd : String
  isdir : String → Bool
  pathExists : String → Bool

/-- SFTPWrapper.upload_file.  Parses the URL (failing before any connection
on a non-sftp scheme), connects, creates the remote directories, puts the
file, then returns the reassembled URL whose path is the percent-encoded
remote path extended with the last component of the local file path.  The
second component is the trace of events in order. -/
def SFTP_upload_file (filepath url : String) :
    Except PyError String × List SftpEvent :=
  match _parse_for_sftp url with
  | .error e => (.error e, [])
  | .ok parsedURL =>
    let events := [SftpEvent.connect parsedURL.hostname,
                   SftpEvent.remoteMakedirs parsedURL.path,
                   SftpEvent.put filepath parsedURL.path]
    let path := quote (parsedURL.path ++ "/" ++ lastSlashComponent filepath)
    (.ok (urlunparse ⟨parsedURL.scheme, parsedURL.netloc, path,
                      parsedURL.params, parsedURL.query, parsedURL.fragment⟩),
     events)

/-- SFTPWrapper.download_file.  Parses the URL (failing before any
connection on a non-sftp scheme), resolves the local destination: the
current working directory when localFilepath is None, then, when the
resolved value is an existing directory, the file name from the unquoted
URL path is appended; creates the missing parent directory, connects, gets
the file and returns the resolved path.  The second component is the trace
of events in order. -/
def SFTP_download_file (url : String) (localFilepath : Option String)
    (fs : LocalFS) : Except PyError String × List SftpEvent :=
  match _parse_for_sftp url with
  | .error e => (.error e, [])
  | .ok parsedURL =>
    let path := unquote parsedURL.path
    let lf0 := match localFilepath with
      | none => fs.cwd
      | some l => l
    let lf := if fs.isdir lf0 then os_path_join lf0 (lastSlashComponent path) else lf0
    let dir := os_path_dirname lf
    let mkEvents := if fs.pathExists dir then [] else [SftpEvent.localMakedirs dir]
    (.ok lf, mkEvents ++ [SftpEvent.connect parsedURL.hostname, SftpEvent.get path lf])

example :
    SFTP_upload_file "/tmp/a b.txt" "sftp://host/base/dir"
      = (.ok "sftp://host/base/dir/a%20b.txt",
         [.connect "host", .remoteMakedirs "/base/dir", .put "/tmp/a b.txt" "/base/dir"]) := by
  decide

example :
    SFTP_download_file "sftp://host/a/b%20c.txt" none
      ⟨"/home/u", fun s => s = "/home/u", fun _ => false⟩
      = (.ok "/home/u/b c.txt",
         [.localMakedirs "/home/u", .connect "host", .get "/a/b c.txt" "/home/u/b c.txt"]) := by
  decide

example :
    (SFTP_download_file "http://host/x" none ⟨"/", fun _ => true, fun _ => true⟩).2
      = [] := by
  decide

/-! ## Lemmas about the batch copy coordinator -/

theorem buildCopyRequests_take : ∀ (n : Nat) (as bs cs : List String)
    (ds es : List (Option String)),
    buildCopyRequests (as.take n) (bs.take n) (cs.take n) (ds.take n) (es.take n)
      = (buildCopyRequests as bs cs ds es).take n := by
  intro n
  induction n with
  | zero => intro as bs cs ds es; simp [buildCopyRequests]
  | succ n ih =>
    intro as bs cs ds es
    cases as with
    | nil => simp [buildCopyRequests]
    | cons a as =>
      cases bs with
      | nil => simp [buildCopyRequests]
      | cons b bs =>
        cases cs with
        | nil => simp [buildCopyRequests]
        | cons c cs =>
          cases ds with
          | nil => simp [buildCopyRequests]
          | cons d ds =>
            cases es with
            | nil => simp [buildCopyRequests]
            | cons e es => simp [buildCopyRequests, ih]

theorem buildCopyRequests_nil_bs (as cs : List String) (ds es : List (Option String)) :
    buildCopyRequests as [] cs ds es = [] := by
  cases as <;> rfl

theorem buildCopyRequests_nil_cs (as bs : List String) (ds es : List (Option String)) :
    buildCopyRequests as bs [] ds es = [] := by
  cases as <;> cases bs <;> rfl

theorem buildCopyRequests_nil_ds (as bs cs : List String) (es : List (Option String)) :
    buildCopyRequests as bs cs [] es = [] := by
  cases as <;> cases bs <;> cases cs <;> rfl

theorem buildCopyRequests_nil_es (as bs cs : List String) (ds : List (Option String)) :
    buildCopyRequests as bs cs ds [] = [] := by
  cases as <;> cases bs <;> cases cs <;> cases ds <;> rfl

theorem buildCopyRequests_drop : ∀ (n : Nat) (as bs cs : List String)
    (ds es : List (Option String)),
    buildCopyRequests (as.drop n) (bs.drop n) (cs.drop n) (ds.drop n) (es.drop n)
      = (buildCopyRequests as bs cs ds es).drop n := by
  intro n
  induction n with
  | zero => intro as bs cs ds es; simp
  | succ n ih =>
    intro as bs cs ds es
    cases as with
    | nil => simp [buildCopyRequests]
    | cons a as =>
      cases bs with
      | nil => simp [buildCopyRequests_nil_bs]
      | cons b bs =>
        cases cs with
        | nil => simp [buildCopyRequests_nil_cs]
        | cons c cs =>
          cases ds with
          | nil => simp [buildCopyRequests_nil_ds]
          | cons d ds =>
            cases es with
            | nil => simp [buildCopyRequests_nil_es]
            | cons e es =>
              simp only [List.drop_succ_cons]
              rw [ih]
              simp [buildCopyRequests]

theorem buildCopyRequests_length : ∀ (as bs cs : List String)
    (ds es : List (Option String)),
    bs.length = as.length → cs.length = as.length →
    ds.length = as.length → es.length = as.length →
    (buildCopyRequests as bs cs ds es).length = as.length := by
  intro as
  induction as with
  | nil => intro bs cs ds es _ _ _ _; simp [buildCopyRequests]
  | cons a as ih =>
    intro bs cs ds es hb hc hd he
    cases bs with
    | nil => simp at hb
    | cons b bs =>
      cases cs with
      | nil => simp at hc
      | cons c cs =>
        cases ds with
        | nil => simp at hd
        | cons d ds =>
          cases es with
          | nil => simp at he
          | cons e es =>
            simp only [List.length_cons, Nat.succ.injEq] at hb hc hd he
            simp [buildCopyRequests, ih bs cs ds es hb hc hd he]

theorem buildCopyRequests_map_fileHandleId : ∀ (as bs cs : List String)
    (ds es : List (Option String)),
    bs.length = as.length → cs.length = as.length →
    ds.length = as.length → es.length = as.length →
    (buildCopyRequests as bs cs ds es).map (fun r => r.originalFile.fileHandleId) = as := by
  intro as
  induction as with
  | nil => intro bs cs ds es _ _ _ _; simp [buildCopyRequests]
  | cons a as ih =>
    intro bs cs ds es hb hc hd he
    cases bs with
    | nil => simp at hb
    | cons b bs =>
      cases cs with
      | nil => simp at hc
      | cons c cs =>
        cases ds with
        | nil => simp at hd
        | cons d ds =>
          cases es with
          | nil => simp at he
          | cons e es =>
            simp only [List.length_cons, Nat.succ.injEq] at hb hc hd he
            simp [buildCopyRequests, ih bs cs ds es hb hc hd he]

theorem copyPagesAux_trace_length {α : Type} (remote : BatchCopyRequest → List α) :
    ∀ (fuel : Nat) (as bs cs : List String) (ds es : List (Option String)),
    as.length ≤ fuel →
    (copyPagesAux remote fuel as bs cs ds es).2.length = (as.length + 99) / 100 := by
  intro fuel
  induction fuel with
  | zero =>
    intro as bs cs ds es h
    cases as with
    | nil => simp [copyPagesAux]
    | cons a as => simp at h
  | succ fuel ih =>
    intro as bs cs ds es h
    cases as with
    | nil => simp [copyPagesAux]
    | cons a as =>
      have hlen : ((a :: as).drop MAX_FILE_HANDLE_PER_COPY_REQUEST).length ≤ fuel := by
        simp only [List.length_drop, List.length_cons,
          MAX_FILE_HANDLE_PER_COPY_REQUEST]
        simp only [List.length_cons] at h
        omega
      simp only [copyPagesAux, List.length_cons]
      rw [ih _ _ _ _ _ hlen]
      simp only [List.length_drop, List.length_cons, MAX_FILE_HANDLE_PER_COPY_REQUEST]
      omega

theorem copyPagesAux_trace_getD {α : Type} (remote : BatchCopyRequest → List α) :
    ∀ (fuel : Nat) (as bs cs : List String) (ds es : List (Option String)),
    as.length ≤ fuel → ∀ (i : Nat),
    ((copyPagesAux remote fuel as bs cs ds es).2.getD i ⟨[]⟩).copyRequests
      = ((buildCopyRequests as bs cs ds es).drop (100 * i)).take 100 := by
  intro fuel
  induction fuel with
  | zero =>
    intro as bs cs ds es h i
    cases as with
    | nil => simp [copyPagesAux, buildCopyRequests]
    | cons a as => simp at h
  | succ fuel ih =>
    intro as bs cs ds es h i
    cases as with
    | nil => simp [copyPagesAux, buildCopyRequests]
    | cons a as =>
      have hlen : ((a :: as).drop MAX_FILE_HANDLE_PER_COPY_REQUEST).length ≤ fuel := by
        simp only [List.length_drop, List.length_cons,
          MAX_FILE_HANDLE_PER_COPY_REQUEST]
        simp only [List.length_cons] at h
        omega
      cases i with
      | zero =>
        simp only [copyPagesAux, List.getD_cons_zero,
          _create_batch_file_handle_copy_request, MAX_FILE_HANDLE_PER_COPY_REQUEST]
        rw [buildCopyRequests_take]
        simp
      | succ i =>
        simp only [copyPagesAux, List.getD_cons_succ]
        rw [ih _ _ _ _ _ hlen i]
        simp only [MAX_FILE_HANDLE_PER_COPY_REQUEST]
        rw [buildCopyRequests_drop, List.drop_drop]
        have harith : 100 + 100 * i = 100 * (i + 1) := by ring
        rw [harith]

theorem copyPagesAux_results_flatten {α : Type} (remote : BatchCopyRequest → List α) :
    ∀ (fuel : Nat) (as bs cs : List String) (ds es : List (Option String)),
    (copyPagesAux remote fuel as bs cs ds es).1
      = ((copyPagesAux remote fuel as bs cs ds es).2.map remote).flatten := by
  intro fuel
  induction fuel with
  | zero =>
    intro as bs cs ds es
    cases as with
    | nil => simp [copyPagesAux]
    | cons a as => simp [copyPagesAux]
  | succ fuel ih =>
    intro as bs cs ds es
    cases as with
    | nil => simp [copyPagesAux]
    | cons a as => simp [copyPagesAux, ih]

theorem copyPagesAux_results_map {α : Type} (f : CopyRequestItem → α) :
    ∀ (fuel : Nat) (as bs cs : List String) (ds es : List (Option String)),
    as.length ≤ fuel →
    (copyPagesAux (fun r => r.copyRequests.map f) fuel as bs cs ds es).1
      = (buildCopyRequests as bs cs ds es).map f := by
  intro fuel
  induction fuel with
  | zero =>
    intro as bs cs ds es h
    cases as with
    | nil => simp [copyPagesAux, buildCopyRequests]
    | cons a as => simp at h
  | succ fuel ih =>
    intro as bs cs ds es h
    cases as with
    | nil => simp [copyPagesAux, buildCopyRequests]
    | cons a as =>
      have hlen : ((a :: as).drop MAX_FILE_HANDLE_PER_COPY_REQUEST).length ≤ fuel := by
        simp only [List.length_drop, List.length_cons,
          MAX_FILE_HANDLE_PER_COPY_REQUEST]
        simp only [List.length_cons] at h
        omega
      simp only [copyPagesAux, _create_batch_file_handle_copy_request]
      rw [ih _ _ _ _ _ hlen]
      rw [buildCopyRequests_take, buildCopyRequests_drop]
      rw [← List.map_append, List.take_append_drop]

theorem copyPagesAux_nil {α : Type} (remote : BatchCopyRequest → List α)
    (fuel : Nat) (bs cs : List String) (ds es : List (Option String)) :
    copyPagesAux remote fuel [] bs cs ds es = ([], []) := by
  cases fuel <;> rfl

theorem copyPagesAux_cons {α : Type} (remote : BatchCopyRequest → List α)
    (fuel : Nat) (a : String) (as bs cs : List String) (ds es : List (Option String)) :
    copyPagesAux remote (fuel + 1) (a :: as) bs cs ds es
      = (remote (_create_batch_file_handle_copy_request ((a :: as).take 100)
            (bs.take 100) (cs.take 100) (ds.take 100) (es.take 100))
          ++ (copyPagesAux remote fuel ((a :: as).drop 100)
            (bs.drop 100) (cs.drop 100) (ds.drop 100) (es.drop 100)).1,
         _create_batch_file_handle_copy_request ((a :: as).take 100)
            (bs.take 100) (cs.take 100) (ds.take 100) (es.take 100)
          :: (copyPagesAux remote fuel ((a :: as).drop 100)
            (bs.drop 100) (cs.drop 100) (ds.drop 100) (es.drop 100)).2) := rfl

theorem copyPagesAux_one_page {α : Type} (remote : BatchCopyRequest → List α)
    (fuel : Nat) (as bs cs : List String) (ds es : List (Option String))
    (hne : as ≠ []) (hfuel : as.length ≤ fuel)
    (ha : as.length ≤ 100) (hb : bs.length ≤ 100) (hc : cs.length ≤ 100)
    (hd : ds.length ≤ 100) (he : es.length ≤ 100) :
    copyPagesAux remote fuel as bs cs ds es
      = (remote (_create_batch_file_handle_copy_request as bs cs ds es),
         [_create_batch_file_handle_copy_request as bs cs ds es]) := by
  cases as with
  | nil => exact absurd rfl hne
  | cons a as =>
    cases fuel with
    | zero => simp at hfuel
    | succ fuel =>
      rw [copyPagesAux_cons]
      rw [List.drop_eq_nil_of_le ha, copyPagesAux_nil]
      rw [List.take_of_length_le ha, List.take_of_length_le hb,
        List.take_of_length_le hc, List.take_of_length_le hd,
        List.take_of_length_le he]
      simp

theorem copyFileHandles_valid {α : Type} (remote : BatchCopyRequest → List α)
    (fhs ots ois : List String) (cts fns : List (Option String))
    (hne : fhs ≠ []) (hot : ots.length = fhs.length) (hoi : ois.length = fhs.length)
    (hct : cts.length = fhs.length) (hfn : fns.length = fhs.length) :
    copyFileHandles remote fhs ots ois (some cts) (some fns)
      = (.ok (copyPages remote fhs ots ois cts fns).1,
         (copyPages remote fhs ots ois cts fns).2) := by
  have h0 : fhs.length ≠ 0 := fun h => hne (List.length_eq_zero.mp h)
  simp [copyFileHandles, h0, hot, hoi, hct, hfn]

/-! ## Claims C1 to C5 (batch copy coordinator, modelled from the spec) -/

/-- C1: for every valid input of equal-length non-empty lists of size N,
copyFileHandles issues exactly ceil(N / PAGE_SIZE) remote calls
(PAGE_SIZE = 100 = MAX_FILE_HANDLE_PER_COPY_REQUEST), the i-th issued
request body being exactly the i-th consecutive slice of the zipped request
list (sequential ascending slice order), so that every page except possibly
the last contains exactly 100 items.  The N = 102 instance (2 calls, 100
then 2 items) is checked in the witness. -/
theorem C1_copyFileHandles_paging {α : Type} (remote : BatchCopyRequest → List α)
    (fhs ots ois : List String) (cts fns : List (Option String))
    (hne : fhs ≠ []) (hot : ots.length = fhs.length) (hoi : ois.length = fhs.length)
    (hct : cts.length = fhs.length) (hfn : fns.length = fhs.length) :
    (copyFileHandles remote fhs ots ois (some cts) (some fns)).2.length
        = (fhs.length + 99) / 100
    ∧ (∀ i : Nat,
        ((copyFileHandles remote fhs ots ois (some cts) (some fns)).2.getD i ⟨[]⟩).copyRequests
          = ((buildCopyRequests fhs ots ois cts fns).drop (100 * i)).take 100)
    ∧ (∀ i : Nat,
        i + 1 < (copyFileHandles remote fhs ots ois (some cts) (some fns)).2.length →
        ((copyFileHandles remote fhs ots ois (some cts) (some fns)).2.getD i ⟨[]⟩).copyRequests.length
          = 100) := by
  rw [copyFileHandles_valid remote fhs ots ois cts fns hne hot hoi hct hfn]
  simp only [copyPages]
  have hlen := copyPagesAux_trace_length remote fhs.length fhs ots ois cts fns (le_refl _)
  have hgetD := copyPagesAux_trace_getD remote fhs.length fhs ots ois cts fns (le_refl _)
  refine ⟨hlen, hgetD, ?_⟩
  intro i hi
  rw [hgetD i]
  rw [hlen] at hi
  have hbl : (buildCopyRequests fhs ots ois cts fns).length = fhs.length :=
    buildCopyRequests_length fhs ots ois cts fns hot hoi hct hfn
  simp only [List.length_take, List.length_drop, hbl]
  omega

def fh102 : List String := List.replicate 102 "h"

def ot102 : List String := List.replicate 102 "FileEntity"

def oi102 : List String := List.replicate 102 "o"

def ct102 : List (Option String) := List.replicate 102 (some "text/plain")

def fn102 : List (Option String) := List.replicate 102 (some "test")

/-- An oracle for the remote copy endpoint that echoes the submitted page. -/
def echoRemote : BatchCopyRequest → List CopyRequestItem := fun r => r.copyRequests

/-- Witness for C1 at the N = 102 instance of the spec: the hypotheses hold
for five concrete 102-element lists, the general conclusion follows by the
theorem, and concretely exactly 2 remote calls are made, the first with 100
items and the second with 2 items. -/
theorem C1_copyFileHandles_paging_witness :
    (fh102 ≠ [] ∧ ot102.length = fh102.length ∧ oi102.length = fh102.length
      ∧ ct102.length = fh102.length ∧ fn102.length = fh102.length)
    ∧ ((copyFileHandles echoRemote fh102 ot102 oi102 (some ct102) (some fn102)).2.length
          = (fh102.length + 99) / 100
       ∧ (∀ i : Nat,
           ((copyFileHandles echoRemote fh102 ot102 oi102 (some ct102) (some fn102)).2.getD i ⟨[]⟩).copyRequests
             = ((buildCopyRequests fh102 ot102 oi102 ct102 fn102).drop (100 * i)).take 100)
       ∧ (∀ i : Nat,
           i + 1 < (copyFileHandles echoRemote fh102 ot102 oi102 (some ct102) (some fn102)).2.length →
           ((copyFileHandles echoRemote fh102 ot102 oi102 (some ct102) (some fn102)).2.getD i ⟨[]⟩).copyRequests.length
             = 100))
    ∧ (copyFileHandles echoRemote fh102 ot102 oi102 (some ct102) (some fn102)).2.length = 2
    ∧ ((copyFileHandles echoRemote fh102 ot102 oi102 (some ct102) (some fn102)).2.getD 0 ⟨[]⟩).copyRequests.length = 100
    ∧ ((copyFileHandles echoRemote fh102 ot102 oi102 (some ct102) (some fn102)).2.getD 1 ⟨[]⟩).copyRequests.length = 2 :=
  ⟨⟨by decide, by decide, by decide, by decide, by decide⟩,
   C1_copyFileHandles_paging echoRemote fh102 ot102 oi102 ct102 fn102
     (by decide) (by decide) (by decide) (by decide) (by decide),
   by decide, by decide, by decide⟩

/-- C2: for every valid input of equal-length non-empty lists of size N and
a remote endpoint answering one result per submitted item, the returned
list is ok, equals the concatenation of the per-page copyResults in page
order, equals the image of the full zipped request list (so it has length N
and its i-th element originates from the i-th input item), and the zipped
request list enumerates the input file-handle ids in input order. -/
theorem C2_copyFileHandles_result {α : Type} (remote : BatchCopyRequest → List α)
    (f : CopyRequestItem → α)
    (fhs ots ois : List String) (cts fns : List (Option String))
    (hne : fhs ≠ []) (hot : ots.length = fhs.length) (hoi : ois.length = fhs.length)
    (hct : cts.length = fhs.length) (hfn : fns.length = fhs.length)
    (hremote : ∀ r, remote r = r.copyRequests.map f) :
    (copyFileHandles remote fhs ots ois (some cts) (some fns)).1
        = .ok (((copyFileHandles remote fhs ots ois (some cts) (some fns)).2.map remote).flatten)
    ∧ (copyFileHandles remote fhs ots ois (some cts) (some fns)).1
        = .ok ((buildCopyRequests fhs ots ois cts fns).map f)
    ∧ ((buildCopyRequests fhs ots ois cts fns).map f).length = fhs.length
    ∧ (buildCopyRequests fhs ots ois cts fns).map (fun r => r.originalFile.fileHandleId) = fhs := by
  have hfun : remote = fun r => r.copyRequests.map f := funext hremote
  subst hfun
  rw [copyFileHandles_valid _ fhs ots ois cts fns hne hot hoi hct hfn]
  refine ⟨?_, ?_, ?_, ?_⟩
  · simp only [copyPages]
    rw [copyPagesAux_results_flatten]
  · simp only [copyPages]
    rw [copyPagesAux_results_map f fhs.length fhs ots ois cts fns (le_refl _)]
  · rw [List.length_map]
    exact buildCopyRequests_length fhs ots ois cts fns hot hoi hct hfn
  · exact buildCopyRequests_map_fileHandleId fhs ots ois cts fns hot hoi hct hfn

/-- A per-item result builder used by the C2 witness: a success result
echoing the original file handle id. -/
def echoItem : CopyRequestItem → CopyResultItem :=
  fun r => .success [] r.originalFile.fileHandleId

/-- A remote oracle answering one echoItem result per submitted item. -/
def echoItemRemote : BatchCopyRequest → List CopyResultItem :=
  fun r => r.copyRequests.map echoItem

/-- Witness for C2 at a concrete 2-element input. -/
theorem C2_copyFileHandles_result_witness :
    ((["345", "789"] : List String) ≠ []
      ∧ (["FileEntity", "FileEntity"] : List String).length = (["345", "789"] : List String).length
      ∧ (["543", "987"] : List String).length = (["345", "789"] : List String).length
      ∧ ([none, some "text/plain"] : List (Option String)).length = (["345", "789"] : List String).length
      ∧ ([none, some "test"] : List (Option String)).length = (["345", "789"] : List String).length)
    ∧ ((copyFileHandles echoItemRemote ["345", "789"] ["FileEntity", "FileEntity"] ["543", "987"]
          (some [none, some "text/plain"]) (some [none, some "test"])).1
        = .ok (((copyFileHandles echoItemRemote ["345", "789"] ["FileEntity", "FileEntity"] ["543", "987"]
          (some [none, some "text/plain"]) (some [none, some "test"])).2.map echoItemRemote).flatten)
      ∧ (copyFileHandles echoItemRemote ["345", "789"] ["FileEntity", "FileEntity"] ["543", "987"]
          (some [none, some "text/plain"]) (some [none, some "test"])).1
        = .ok ((buildCopyRequests ["345", "789"] ["FileEntity", "FileEntity"] ["543", "987"]
            [none, some "text/plain"] [none, some "test"]).map echoItem)
      ∧ ((buildCopyRequests ["345", "789"] ["FileEntity", "FileEntity"] ["543", "987"]
            [none, some "text/plain"] [none, some "test"]).map echoItem).length
        = (["345", "789"] : List String).length
      ∧ (buildCopyRequests ["345", "789"] ["FileEntity", "FileEntity"] ["543", "987"]
            [none, some "text/plain"] [none, some "test"]).map (fun r => r.originalFile.fileHandleId)
        = ["345", "789"]) :=
  ⟨⟨by decide, by decide, by decide, by decide, by decide⟩,
   C2_copyFileHandles_result echoItemRemote echoItem ["345", "789"]
     ["FileEntity", "FileEntity"] ["543", "987"] [none, some "text/plain"] [none, some "test"]
     (by decide) (by decide) (by decide) (by decide) (by decide) (fun r => rfl)⟩

/-- C3: whenever the three required lists are empty or of unequal length,
or a supplied optional list has a different length, copyFileHandles raises
a ValueError (the InvalidArgument category of the spec) and the trace of
remote calls is empty: validation fails before any network call. -/
theorem C3_copyFileHandles_validation {α : Type} (remote : BatchCopyRequest → List α)
    (fhs ots ois : List String) (ctsO fnsO : Option (List (Option String)))
    (h : fhs = [] ∨ ots.length ≠ fhs.length ∨ ois.length ≠ fhs.length
      ∨ (∃ cts, ctsO = some cts ∧ cts.length ≠ fhs.length)
      ∨ (∃ fns, fnsO = some fns ∧ fns.length ≠ fhs.length)) :
    (∃ msg, (copyFileHandles remote fhs ots ois ctsO fnsO).1 = .error (.valueError msg []))
    ∧ (copyFileHandles remote fhs ots ois ctsO fnsO).2 = []
    ∧ isInvalidArgument (.valueError "Input lists must be non-empty and of equal length" []) = true := by
  by_cases hreq : fhs.length = 0 ∨ ots.length ≠ fhs.length ∨ ois.length ≠ fhs.length
  · rw [copyFileHandles, if_pos hreq]
    exact ⟨⟨_, rfl⟩, rfl, rfl⟩
  · have hopt : (ctsO.getD (List.replicate fhs.length none)).length ≠ fhs.length
        ∨ (fnsO.getD (List.replicate fhs.length none)).length ≠ fhs.length := by
      rcases h with h | h | h | ⟨cts, hc, hl⟩ | ⟨fns, hf, hl⟩
      · exact absurd (Or.inl (by simp [h])) hreq
      · exact absurd (Or.inr (Or.inl h)) hreq
      · exact absurd (Or.inr (Or.inr h)) hreq
      · left
        rw [hc]
        simpa using hl
      · right
        rw [hf]
        simpa using hl
    rw [copyFileHandles, if_neg hreq]
    simp only []
    rw [if_pos hopt]
    exact ⟨⟨_, rfl⟩, rfl, rfl⟩

/-- Witness for C3 at the concrete invalid input of the unit test: one file
handle, zero object types, one object id. -/
theorem C3_copyFileHandles_validation_witness :
    (∃ msg, (copyFileHandles echoRemote ["test"] [] ["123"] none none).1
      = .error (.valueError msg []))
    ∧ (copyFileHandles echoRemote ["test"] [] ["123"] none none).2 = []
    ∧ isInvalidArgument (.valueError "Input lists must be non-empty and of equal length" []) = true :=
  C3_copyFileHandles_validation echoRemote ["test"] [] ["123"] none none
    (Or.inr (Or.inl (by decide)))

/-- C4: building the request body from the five parallel lists of the unit
test produces exactly the nested two-entry structure, zipped positionally
in input order, with the originalFile sub-object nested and
newContentType and newFileName at the top level of each entry. -/
theorem C4_create_batch_request :
    _create_batch_file_handle_copy_request ["345", "789"] ["FileEntity", "FileEntity"]
      ["543", "987"] [none, some "text/plain"] [none, some "test"]
    = ⟨[⟨⟨"345", "543", "FileEntity"⟩, none, none⟩,
        ⟨⟨"789", "987", "FileEntity"⟩, some "text/plain", some "test"⟩]⟩ := by
  decide

/-- C5: for a valid 2-item input, when the remote call succeeds at the
transport level and answers any two result items (for example one success
and one failureCode item), copyFileHandles returns exactly those two items
in order, as an ok value (no exception), after a single remote call. -/
theorem C5_mixed_results_passthrough {α : Type} (remote : BatchCopyRequest → List α)
    (fhs ots ois : List String) (cts fns : List (Option String)) (a b : α)
    (hfh : fhs.length = 2) (hot : ots.length = 2) (hoi : ois.length = 2)
    (hct : cts.length = 2) (hfn : fns.length = 2)
    (hremote : remote (_create_batch_file_handle_copy_request fhs ots ois cts fns) = [a, b]) :
    copyFileHandles remote fhs ots ois (some cts) (some fns)
      = (.ok [a, b], [_create_batch_file_handle_copy_request fhs ots ois cts fns]) := by
  have hne : fhs ≠ [] := by
    intro hnil
    rw [hnil] at hfh
    simp at hfh
  rw [copyFileHandles_valid remote fhs ots ois cts fns hne (by omega) (by omega)
    (by omega) (by omega)]
  rw [copyPages, copyPagesAux_one_page remote fhs.length fhs ots ois cts fns hne
    (le_refl _) (by omega) (by omega) (by omega) (by omega) (by omega)]
  rw [hremote]

/-- The mixed response of the unit test: one success item and one
failureCode item. -/
def mixedSuccess : CopyResultItem :=
  .success [("id", "0987"), ("contentType", "text/plain")] "789"

/-- The per-item failure of the unit test: an UNAUTHORIZED failure code. -/
def mixedFailure : CopyResultItem :=
  .failure "UNAUTHORIZED" "NotAccessibleFile"

/-- A remote oracle returning the mixed response of the unit test. -/
def mixedRemote : BatchCopyRequest → List CopyResultItem :=
  fun _ => [mixedSuccess, mixedFailure]

/-- Witness for C5 at the concrete input of the unit test: a response
mixing one success item and one UNAUTHORIZED failureCode item is returned
verbatim as a 2-element list. -/
theorem C5_mixed_results_passthrough_witness :
    copyFileHandles mixedRemote ["789", "NotAccessibleFile"] ["FileEntity", "FileEntity"]
      ["0987", "2352"] (some [none, some "text/plain"]) (some [none, some "testName"])
    = (.ok [mixedSuccess, mixedFailure],
       [_create_batch_file_handle_copy_request ["789", "NotAccessibleFile"]
         ["FileEntity", "FileEntity"] ["0987", "2352"]
         [none, some "text/plain"] [none, some "testName"]]) :=
  C5_mixed_results_passthrough mixedRemote ["789", "NotAccessibleFile"]
    ["FileEntity", "FileEntity"] ["0987", "2352"]
    [none, some "text/plain"] [none, some "testName"] mixedSuccess mixedFailure
    (by decide) (by decide) (by decide) (by decide) (by decide) rfl

/-! ## Claims C6 to C10 (storage adapters, from the source) -/

/-- C6: for every S3 download whose backend raises a client error, an error
code of 404 is translated into the domain-level not-found error (a
ValueError carrying the missing key and the bucket as its arguments, in
that order), and any other error code propagates the backend error
unchanged. -/
theorem C6_s3_download_error_mapping
    (bucket endpoint_url remote_file_key download_file_path code payload : String) :
    (code = "404" →
      S3_download_file bucket endpoint_url remote_file_key download_file_path
        (.error (.clientError code payload))
        = .error (.valueError s3NotFoundMsg [remote_file_key, bucket]))
    ∧ (code ≠ "404" →
      S3_download_file bucket endpoint_url remote_file_key download_file_path
        (.error (.clientError code payload))
        = .error (.clientError code payload)) := by
  constructor
  · intro h
    simp [S3_download_file, h]
  · intro h
    simp [S3_download_file, h]

/-- Witness for C6: a 404 becomes the not-found ValueError naming key and
bucket, a 500 propagates unchanged. -/
theorem C6_s3_download_error_mapping_witness :
    (S3_download_file "myBucket" "ep" "myKey" "/tmp/f" (.error (.clientError "404" "x"))
      = .error (.valueError s3NotFoundMsg ["myKey", "myBucket"]))
    ∧ (S3_download_file "myBucket" "ep" "myKey" "/tmp/f" (.error (.clientError "500" "x"))
      = .error (.clientError "500" "x")) :=
  ⟨(C6_s3_download_error_mapping "myBucket" "ep" "myKey" "/tmp/f" "404" "x").1 rfl,
   (C6_s3_download_error_mapping "myBucket" "ep" "myKey" "/tmp/f" "500" "x").2 (by decide)⟩

/-- C7: for every S3 upload whose source path is not an existing regular
file, upload_file raises a ValueError (the InvalidArgument category of the
spec) and the network event trace is empty: no session is created and no
transfer is attempted. -/
theorem C7_s3_upload_validation
    (bucket endpoint_url remote_file_key upload_file_path : String)
    (profile_name : Option String) (isfile : String → Bool)
    (h : isfile upload_file_path = false) :
    S3_upload_file bucket endpoint_url remote_file_key upload_file_path profile_name isfile
      = (.error (.valueError s3UploadBadPathMsg [upload_file_path]), [])
    ∧ isInvalidArgument (.valueError s3UploadBadPathMsg [upload_file_path]) = true := by
  constructor
  · simp [S3_upload_file, h]
  · rfl

/-- Witness for C7 at a concrete missing path. -/
theorem C7_s3_upload_validation_witness :
    S3_upload_file "bucket" "ep" "key" "/no/such/file" none (fun _ => false)
      = (.error (.valueError s3UploadBadPathMsg ["/no/such/file"]), [])
    ∧ isInvalidArgument (.valueError s3UploadBadPathMsg ["/no/such/file"]) = true :=
  C7_s3_upload_validation "bucket" "ep" "key" "/no/such/file" none (fun _ => false) rfl

/-- C8 counterexample: a successful S3 upload returns the local source path
verbatim, not a remote locator constructed by percent-encoding and URL
reassembly: for a source path containing a space the returned value is the
raw path, which differs from its percent-encoded form. -/
theorem C8_s3_upload_counterexample :
    (S3_upload_file "bucket" "ep" "key" "dir/my file.txt" none (fun _ => true)).1
      = .ok "dir/my file.txt"
    ∧ quote "dir/my file.txt" ≠ "dir/my file.txt" := by
  constructor
  · rfl
  · decide

/-- C8 (amended): every successful SFTP upload returns the URL obtained by
percent-encoding the path component (the URL path extended with the last
component of the local file path) and reassembling the parsed URL from its
parts; the S3 adapter instead returns the local upload file path
unchanged. -/
theorem C8_upload_return_locator (filepath url : String) (p : ParseResult)
    (hp : _parse_for_sftp url = .ok p)
    (bucket endpoint_url remote_file_key upload_file_path : String)
    (profile_name : Option String) (isfile : String → Bool)
    (hf : isfile upload_file_path = true) :
    (SFTP_upload_file filepath url).1
      = .ok (urlunparse ⟨p.scheme, p.netloc,
          quote (p.path ++ "/" ++ lastSlashComponent filepath),
          p.params, p.query, p.fragment⟩)
    ∧ (S3_upload_file bucket endpoint_url remote_file_key upload_file_path profile_name isfile).1
      = .ok upload_file_path := by
  constructor
  · simp [SFTP_upload_file, hp]
  · simp [S3_upload_file, hf]

/-- Witness for C8 (amended): a concrete SFTP upload yields the reassembled
percent-encoded URL and a concrete S3 upload yields the local path. -/
theorem C8_upload_return_locator_witness :
    (SFTP_upload_file "/tmp/a b.txt" "sftp://host/base/dir").1
      = .ok "sftp://host/base/dir/a%20b.txt"
    ∧ (S3_upload_file "bucket" "ep" "key" "/tmp/src.txt" none (fun _ => true)).1
      = .ok "/tmp/src.txt" :=
  C8_upload_return_locator "/tmp/a b.txt" "sftp://host/base/dir"
    ⟨"sftp", "host", "/base/dir", "", "", ""⟩ (by decide)
    "bucket" "ep" "key" "/tmp/src.txt" none (fun _ => true) rfl

/-- C9: for every SFTP upload or download whose URL does not parse with the
sftp scheme, the adapter raises the scheme-restriction error (a
NotImplementedError, in the InvalidArgument category of the spec taxonomy:
malformed caller input) and the event trace is empty, so no connection is
opened; for a URL parsing with the sftp scheme the parse step succeeds and
raises nothing. -/
theorem C9_sftp_scheme_check (url filepath : String) (lf : Option String) (fs : LocalFS) :
    ((urlparse url).scheme ≠ "sftp" →
      _parse_for_sftp url = .error (.notImplementedError sftpSchemeErrorMsg)
      ∧ isInvalidArgument (.notImplementedError sftpSchemeErrorMsg) = true
      ∧ SFTP_upload_file filepath url = (.error (.notImplementedError sftpSchemeErrorMsg), [])
      ∧ SFTP_download_file url lf fs = (.error (.notImplementedError sftpSchemeErrorMsg), []))
    ∧ ((urlparse url).scheme = "sftp" → _parse_for_sftp url = .ok (urlparse url)) := by
  constructor
  · intro h
    have hp : _parse_for_sftp url = .error (.notImplementedError sftpSchemeErrorMsg) := by
      simp [_parse_for_sftp, h]
    refine ⟨hp, rfl, ?_, ?_⟩
    · simp [SFTP_upload_file, hp]
    · simp [SFTP_download_file, hp]
  · intro h
    simp [_parse_for_sftp, h]

/-- Witness for C9: a http URL is rejected with the scheme error and an
empty trace for both operations, and an sftp URL parses successfully. -/
theorem C9_sftp_scheme_check_witness :
    (_parse_for_sftp "http://host/x" = .error (.notImplementedError sftpSchemeErrorMsg)
      ∧ isInvalidArgument (.notImplementedError sftpSchemeErrorMsg) = true
      ∧ SFTP_upload_file "/tmp/f" "http://host/x"
          = (.error (.notImplementedError sftpSchemeErrorMsg), [])
      ∧ SFTP_download_file "http://host/x" none ⟨"/", fun _ => true, fun _ => true⟩
          = (.error (.notImplementedError sftpSchemeErrorMsg), []))
    ∧ (_parse_for_sftp "sftp://host/x" = .ok (urlparse "sftp://host/x")) :=
  ⟨(C9_sftp_scheme_check "http://host/x" "/tmp/f" none ⟨"/", fun _ => true, fun _ => true⟩).1
     (by decide),
   (C9_sftp_scheme_check "sftp://host/x" "/tmp/f" none ⟨"/", fun _ => true, fun _ => true⟩).2
     (by decide)⟩

/-- C10: for an SFTP download of a URL parsing with the sftp scheme, when
localFilepath is omitted the destination is the current working directory
(an existing directory) joined with the last component of the unquoted URL
path; when localFilepath names an existing directory the destination is
that directory joined with the same remote file name; in both cases the
parent directory of the destination is created exactly when it does not
exist, before the transfer, and the resolved path is returned. -/
theorem C10_sftp_download_destination (url : String) (p : ParseResult)
    (fs : LocalFS) (d : String) (hp : _parse_for_sftp url = .ok p) :
    (fs.isdir fs.cwd = true →
      SFTP_download_file url none fs
        = (.ok (os_path_join fs.cwd (lastSlashComponent (unquote p.path))),
           (if fs.pathExists (os_path_dirname
                (os_path_join fs.cwd (lastSlashComponent (unquote p.path)))) then []
            else [SftpEvent.localMakedirs (os_path_dirname
                (os_path_join fs.cwd (lastSlashComponent (unquote p.path))))])
           ++ [SftpEvent.connect p.hostname,
               SftpEvent.get (unquote p.path)
                 (os_path_join fs.cwd (lastSlashComponent (unquote p.path)))]))
    ∧ (fs.isdir d = true →
      SFTP_download_file url (some d) fs
        = (.ok (os_path_join d (lastSlashComponent (unquote p.path))),
           (if fs.pathExists (os_path_dirname
                (os_path_join d (lastSlashComponent (unquote p.path)))) then []
            else [SftpEvent.localMakedirs (os_path_dirname
                (os_path_join d (lastSlashComponent (unquote p.path))))])
           ++ [SftpEvent.connect p.hostname,
               SftpEvent.get (unquote p.path)
                 (os_path_join d (lastSlashComponent (unquote p.path)))])) := by
  constructor
  · intro h
    simp [SFTP_download_file, hp, h]
  · intro h
    simp [SFTP_download_file, hp, h]

/-- Witness for C10: a concrete download with a percent-encoded URL, once
with localFilepath omitted (destination resolved inside the working
directory, parent missing, so it is created before the transfer), once with
an existing directory supplied. -/
theorem C10_sftp_download_destination_witness :
    (SFTP_download_file "sftp://host/a/b%20c.txt" none
        ⟨"/home/u", fun s => s = "/home/u" || s = "/data", fun _ => false⟩
      = (.ok "/home/u/b c.txt",
         [.localMakedirs "/home/u", .connect "host", .get "/a/b c.txt" "/home/u/b c.txt"]))
    ∧ (SFTP_download_file "sftp://host/a/b%20c.txt" (some "/data")
        ⟨"/home/u", fun s => s = "/home/u" || s = "/data", fun _ => false⟩
      = (.ok "/data/b c.txt",
         [.localMakedirs "/data", .connect "host", .get "/a/b c.txt" "/data/b c.txt"])) :=
  ⟨(C10_sftp_download_destination "sftp://host/a/b%20c.txt"
      ⟨"sftp", "host", "/a/b%20c.txt", "", "", ""⟩
      ⟨"/home/u", fun s => s = "/home/u" || s = "/data", fun _ => false⟩ "/data"
      (by decide)).1 (by decide),
   (C10_sftp_download_destination "sftp://host/a/b%20c.txt"
      ⟨"sftp", "host", "/a/b%20c.txt", "", "", ""⟩
      ⟨"/home/u", fun s => s = "/home/u" || s = "/data", fun _ => false⟩ "/data"
      (by decide)).2 (by decide)⟩
